import Mathlib

/-!
Shallow embedding of the zpl-go printer-transport program.

Two Go programs are embedded:
* `src/src/main.go` — interactive tool with a USB backend (`USBPrinter`,
  built on gousb) and a TCP backend (`NetworkPrinter`).
* `src/unnamed/part_000` — flag-driven serial tool (`sendZpl`,
  `sendZplFromFile`, interactive stdin loop).

External library calls (gousb, net, tarm/serial, os) are modelled by an
environment record whose fields give each call's outcome, and by a trace of
`Event`s recording every operation the program performs against the outside
world.  Go strings are immutable byte strings; payloads are modelled as
`List Nat` of byte values, so that `strings.HasSuffix(zpl, "\n")` is "the
last byte is 10" and `zpl += "\n"` is appending the byte 10.  Error
messages, addresses and file names, whose byte structure never matters, are
left as Lean `String`s.
-/

namespace ZplGo

/-- A Go byte string (e.g. the contents of a `string` or `[]byte` payload),
as the list of its byte values. -/
abbrev Bytes := List Nat

/-- `serial.ParityNone` etc. from the tarm/serial library. -/
inductive Parity where
  | parityNone
  | parityOdd
  | parityEven
  deriving DecidableEq, Repr

/-- `serial.Stop1` etc. from the tarm/serial library. -/
inductive StopBits where
  | stop1
  | stop2
  deriving DecidableEq, Repr

/-- The `serial.Config` struct built by the serial tool's `main`. -/
structure SerialConfig where
  name : String
  baud : Nat
  size : Nat
  parity : Parity
  stopBits : StopBits
  deriving DecidableEq, Repr

/-- One operation performed against the external world (USB stack, socket,
serial port, file system).  Acquisition/release events carry no payload;
write events carry the exact bytes handed to the underlying `Write`. -/
inductive Event where
  | newContext
  | openDevice
  | setAutoDetach
  | claimInterface
  | openOutEndpoint (n : Nat)
  | usbWrite (bytes : Bytes)
  | releaseInterface
  | closeDevice
  | closeContext
  | dial (addr : String)
  | netWrite (bytes : Bytes)
  | closeConn
  | openPort (config : SerialConfig)
  | readFile (path : String)
  | serialWrite (bytes : Bytes)
  | closePort
  deriving DecidableEq, Repr

/-- The three OS-level USB resources `NewUSBPrinter` acquires, in order. -/
inductive Res where
  | rctx
  | rdev
  | rintf
  deriving DecidableEq, Repr

/-- The resource acquired by an event, if any. -/
def acqOf : Event → Option Res
  | .newContext => some .rctx
  | .openDevice => some .rdev
  | .claimInterface => some .rintf
  | _ => none

/-- The resource released by an event, if any. -/
def relOf : Event → Option Res
  | .closeContext => some .rctx
  | .closeDevice => some .rdev
  | .releaseInterface => some .rintf
  | _ => none

/-- Stack-discipline check over a trace: every release must release exactly
the most recently acquired still-held resource, and at the end nothing is
held.  `balancedStack [] tr = true` says the trace acquired and released in
strict LIFO (reverse) order and left nothing claimed. -/
def balancedStack : List Res → List Event → Bool
  | stack, [] => stack.isEmpty
  | stack, e :: rest =>
    match acqOf e with
    | some r => balancedStack (r :: stack) rest
    | none =>
      match relOf e with
      | some r =>
        match stack with
        | top :: s2 => top = r && balancedStack s2 rest
        | [] => false
      | none => balancedStack stack rest

/-- Embeds the newline-framing snippet shared by every send function:
`if !strings.HasSuffix(zpl, "\n") { zpl += "\n" }`.  A byte string ends
with `"\n"` exactly when its last byte is 10. -/
def frame (zpl : Bytes) : Bytes :=
  if zpl.getLast? = some 10 then zpl else zpl ++ [10]

/-- ASCII byte lowering.  `strings.ToLower` itself applies Unicode simple
case mappings rune-wise, so it is modelled as an environment parameter
like the other library calls; on byte strings containing only ASCII,
Go's `strings.ToLower` coincides with mapping this function over the
bytes, which is how the concrete environments below instantiate it for
their ASCII inputs. -/
def asciiLower (b : Nat) : Nat :=
  if 65 ≤ b ∧ b ≤ 90 then b + 32 else b

/-- Byte-wise ASCII lowering of a byte string: agrees with Go's
`strings.ToLower` on ASCII-only strings; the concrete `toLower`
environment instance used by the fixtures. -/
def lowerBytes (s : Bytes) : Bytes :=
  s.map asciiLower

/-- The byte values of the sentinel literal `"exit"`. -/
def exitBytes : Bytes := [101, 120, 105, 116]

/-! ## USB backend (`src/src/main.go`) -/

/-- One endpoint of `intf.Setting.Endpoints`: its direction and number. -/
structure Endpoint where
  dirOut : Bool
  number : Nat
  deriving DecidableEq, Repr

/-- Outcomes of the gousb calls made by `NewUSBPrinter`. -/
structure UsbEnv where
  /-- `ctx.OpenDeviceWithVIDPID`: an error, or `none` when no device
  matches, or `some ()` for an opened device. -/
  openDeviceRes : Except String (Option Unit)
  /-- `runtime.GOOS == "linux"`. -/
  goosLinux : Bool
  /-- `dev.SetAutoDetach(true)`. -/
  setAutoDetachRes : Except String Unit
  /-- `dev.DefaultInterface()` (claims the default interface). -/
  defaultInterfaceRes : Except String Unit
  /-- `intf.Setting.Endpoints`. -/
  endpoints : List Endpoint
  /-- `intf.OutEndpoint(n)`. -/
  outEndpointRes : Nat → Except String Unit

/-- The `USBPrinter` struct: `true` fields model non-nil pointers. -/
structure USBPrinter where
  ctx : Bool
  dev : Bool
  claimed : Bool
  outEP : Option Nat
  deriving DecidableEq, Repr

/-- The endpoint-search loop of `NewUSBPrinter`: the first endpoint whose
direction is OUT (the body breaks after handling the first match). -/
def firstOut : List Endpoint → Option Nat
  | [] => none
  | e :: rest => if e.dirOut then some e.number else firstOut rest

/-- Continuation of `NewUSBPrinter` after the interface has been claimed:
find a bulk OUT endpoint, open it, and build the struct.  `t` is the trace
so far.  On failure: `done()`, `dev.Close()`, and the deferred `ctx.Close()`
run before the return.  On success `ctx` has just been set to `nil`, so the
struct's `ctx` field is `false` and the deferred close is skipped. -/
def afterClaim (env : UsbEnv) (t : List Event) :
    List Event × Except String USBPrinter :=
  match firstOut env.endpoints with
  | none =>
      (t ++ [.releaseInterface, .closeDevice, .closeContext],
       .error "no OUT endpoint found")
  | some n =>
      match env.outEndpointRes n with
      | .error e =>
          (t ++ [.openOutEndpoint n, .releaseInterface, .closeDevice,
                 .closeContext],
           .error ("failed to open out endpoint: " ++ e))
      | .ok _ =>
          (t ++ [.openOutEndpoint n],
           .ok { ctx := false, dev := true, claimed := true, outEP := some n })

/-- Continuation of `NewUSBPrinter` after the (possible) auto-detach step:
claim the default interface.  Failure closes the device, and the deferred
`ctx.Close()` runs on return. -/
def afterDetach (env : UsbEnv) (t : List Event) :
    List Event × Except String USBPrinter :=
  match env.defaultInterfaceRes with
  | .error e =>
      (t ++ [.closeDevice, .closeContext],
       .error ("failed to claim interface: " ++ e))
  | .ok _ => afterClaim env (t ++ [.claimInterface])

/-- `NewUSBPrinter`: acquire a context (with a deferred close that runs
whenever the local `ctx` variable is still non-nil), look up the device by
vendor/product id, auto-detach the kernel driver on Linux, claim the default
interface, and open the first OUT endpoint. -/
def NewUSBPrinter (env : UsbEnv) : List Event × Except String USBPrinter :=
  match env.openDeviceRes with
  | .error e =>
      ([.newContext, .closeContext], .error ("failed to open device: " ++ e))
  | .ok none =>
      ([.newContext, .closeContext], .error "Zebra printer not found")
  | .ok (some _) =>
      if env.goosLinux then
        match env.setAutoDetachRes with
        | .error e =>
            ([.newContext, .openDevice, .setAutoDetach, .closeDevice,
              .closeContext],
             .error ("failed to set auto detach: " ++ e))
        | .ok _ => afterDetach env [.newContext, .openDevice, .setAutoDetach]
      else afterDetach env [.newContext, .openDevice]

/-- `USBPrinter.SendZPL`: refuse when the interface claim flag is cleared;
otherwise frame the payload and hand it to `outEP.Write`, whose outcome is
the parameter `wres`. -/
def USBPrinter.SendZPL (p : USBPrinter) (zpl : Bytes)
    (wres : Except String Unit) : List Event × Except String Unit :=
  if p.claimed = false then ([], .error "printer interface not claimed")
  else ([.usbWrite (frame zpl)], wres)

/-- `USBPrinter.Close`: release the interface claim, close the device, close
the context, each guarded by its own flag, clearing the flag afterwards.
`err` starts out nil and is assigned the result of `p.dev.Close()` (the
parameter `devCloseRes`) only when the device is still set; the results of
`p.intf.Close()` and `p.ctx.Close()` are discarded by the source. -/
def USBPrinter.Close (p : USBPrinter) (devCloseRes : Option String) :
    List Event × USBPrinter × Option String :=
  let t1 := if p.claimed then [Event.releaseInterface] else []
  let p1 := if p.claimed then { p with claimed := false } else p
  let t2 := if p1.dev then [Event.closeDevice] else []
  let err := if p1.dev then devCloseRes else none
  let p2 := if p1.dev then { p1 with dev := false } else p1
  let t3 := if p2.ctx then [Event.closeContext] else []
  let p3 := if p2.ctx then { p2 with ctx := false } else p2
  (t1 ++ t2 ++ t3, p3, err)

/-! ## Network backend (`src/src/main.go`) -/

/-- The `NetworkPrinter` struct: `conn = true` models a non-nil `net.Conn`. -/
structure NetworkPrinter where
  conn : Bool
  addr : String
  deriving DecidableEq, Repr

/-- `NewNetworkPrinter`: dial TCP; on failure wrap the error and build no
handle, on success keep the connection and the address. -/
def NewNetworkPrinter (addr : String) (dialRes : Except String Unit) :
    List Event × Except String NetworkPrinter :=
  match dialRes with
  | .error e =>
      ([.dial addr], .error ("failed to connect to printer: " ++ e))
  | .ok _ => ([.dial addr], .ok { conn := true, addr := addr })

/-- `NetworkPrinter.SendZPL`: refuse when the connection reference has been
cleared; otherwise frame the payload and copy it all to the socket
(`io.Copy` loops until the whole buffer is written), outcome `wres`. -/
def NetworkPrinter.SendZPL (p : NetworkPrinter) (zpl : Bytes)
    (wres : Except String Unit) : List Event × Except String Unit :=
  if p.conn = false then ([], .error "not connected to printer")
  else ([.netWrite (frame zpl)], wres)

/-- `NetworkPrinter.Close`: when the connection reference is still set,
close the socket (result `connCloseRes`), clear the reference and return
the close's result; otherwise do nothing and return nil. -/
def NetworkPrinter.Close (p : NetworkPrinter) (connCloseRes : Option String) :
    List Event × NetworkPrinter × Option String :=
  if p.conn then ([Event.closeConn], { p with conn := false }, connCloseRes)
  else ([], p, none)

/-! ## Serial CLI tool (`src/unnamed/part_000`) -/

/-- `sendZpl(port, zpl)`: frame the command and write it to the port.
`wres` gives the outcome of `port.Write` for each byte string. -/
def sendZpl (wres : Bytes → Except String Unit) (zpl : Bytes) :
    List Event × Except String Unit :=
  let framed := frame zpl
  ([.serialWrite framed], wres framed)

/-- `sendZplFromFile(port, filename)`: read the whole file and write its
bytes to the port directly (no framing).  `rf` gives the outcome of
`os.ReadFile`, `wres` the outcome of `port.Write`. -/
def sendZplFromFile (rf : String → Except String Bytes)
    (wres : Bytes → Except String Unit) (filename : String) :
    List Event × Except String Unit :=
  match rf filename with
  | .error e =>
      ([.readFile filename], .error ("failed to read file: " ++ e))
  | .ok data =>
      match wres data with
      | .error e =>
          ([.readFile filename, .serialWrite data],
           .error ("failed to send data: " ++ e))
      | .ok _ => ([.readFile filename, .serialWrite data], .ok ())

/-- The interactive stdin loop of the serial tool's `main`: read lines until
the scanner is exhausted or a line's `strings.ToLower` image (the library
function, supplied as the parameter `toLower`) is `"exit"`; send every
other non-empty line with `sendZpl`, printing a per-line report; a failed
send is reported and the loop continues.  Returns the trace and the
printed reports. -/
def interactiveLoop (toLower : Bytes → Bytes)
    (wres : Bytes → Except String Unit) :
    List Bytes → List Event × List String
  | [] => ([], [])
  | line :: rest =>
    if toLower line = exitBytes then ([], [])
    else if line = [] then interactiveLoop toLower wres rest
    else
      let sent := sendZpl wres line
      let report :=
        match sent.2 with
        | .error e => "Error sending command: " ++ e
        | .ok _ => "Command sent successfully."
      let rec2 := interactiveLoop toLower wres rest
      (sent.1 ++ rec2.1, report :: rec2.2)

/-- The command-line flags of the serial tool; `baud = none` models the
`-baud` flag being absent, in which case `flag.Int`'s default applies; the
string flags default to empty. -/
structure Flags where
  port : String
  baud : Option Nat
  file : String
  zpl : Bytes

/-- Outcomes of the external calls made by the serial tool's `main`. -/
structure CliEnv where
  /-- `serial.OpenPort(config)`. -/
  openPortRes : SerialConfig → Except String Unit
  /-- `os.ReadFile(path)`: error or the file's bytes. -/
  readFileRes : String → Except String Bytes
  /-- `port.Write(bytes)`. -/
  writeRes : Bytes → Except String Unit
  /-- `strings.ToLower` (Unicode simple case mapping, rune-wise). -/
  toLower : Bytes → Bytes
  /-- the lines available on stdin. -/
  stdinLines : List Bytes

/-- How the serial tool's `main` ends: `fatalExit` is `log.Fatal` /
`log.Fatalf` (report, then terminate the process with a non-zero status,
skipping deferred calls); `normalExit` is falling off the end of `main`. -/
inductive CliResult where
  | fatalExit (msg : String)
  | normalExit
  deriving DecidableEq, Repr

/-- The `serial.Config` literal built by `main` from the flags: the given
name, the effective baud rate (`flag.Int` default 9600), 8 data bits, no
parity, one stop bit. -/
def serialConfigOf (f : Flags) : SerialConfig :=
  { name := f.port
    baud := f.baud.getD 9600
    size := 8
    parity := .parityNone
    stopBits := .stop1 }

/-- The serial tool's `main`: validate the port name (`log.Fatal` when
empty), open the port (`log.Fatalf` on failure), then dispatch on the
`-file` / `-zpl` flags or run the interactive loop.  The deferred
`port.Close()` runs only on the normal return path (`log.Fatal` calls
`os.Exit`, which skips deferred calls). -/
def cliMain (env : CliEnv) (f : Flags) : List Event × CliResult :=
  if f.port = "" then
    ([], .fatalExit "Port name is required. Use -port flag.")
  else
    let config := serialConfigOf f
    match env.openPortRes config with
    | .error e =>
        ([.openPort config], .fatalExit ("Failed to open serial port: " ++ e))
    | .ok _ =>
      if f.file ≠ "" then
        match sendZplFromFile env.readFileRes env.writeRes f.file with
        | (evs, .error e) =>
            (Event.openPort config :: evs,
             .fatalExit ("Failed to send ZPL file: " ++ e))
        | (evs, .ok _) =>
            (Event.openPort config :: evs ++ [.closePort], .normalExit)
      else if f.zpl ≠ [] then
        match sendZpl env.writeRes f.zpl with
        | (evs, .error e) =>
            (Event.openPort config :: evs,
             .fatalExit ("Failed to send ZPL command: " ++ e))
        | (evs, .ok _) =>
            (Event.openPort config :: evs ++ [.closePort], .normalExit)
      else
        let res := interactiveLoop env.toLower env.writeRes env.stdinLines
        (Event.openPort config :: res.1 ++ [.closePort], .normalExit)

/-! ## Concrete fixtures used by witnesses and counterexamples -/

/-- The handle a successful `NewUSBPrinter` builds when the first OUT
endpoint has number 1. -/
def usb0 : USBPrinter :=
  { ctx := false, dev := true, claimed := true, outEP := some 1 }

/-- An open network handle. -/
def net0 : NetworkPrinter :=
  { conn := true, addr := "192.168.1.100:9100" }

/-- A USB environment in which every gousb call succeeds and the interface
has a single OUT endpoint numbered 1. -/
def usbEnvOk : UsbEnv :=
  { openDeviceRes := .ok (some ())
    goosLinux := true
    setAutoDetachRes := .ok ()
    defaultInterfaceRes := .ok ()
    endpoints := [{ dirOut := true, number := 1 }]
    outEndpointRes := fun _ => .ok () }

/-- A USB environment in which no matching device is attached. -/
def usbEnvNoDev : UsbEnv :=
  { openDeviceRes := .ok none
    goosLinux := false
    setAutoDetachRes := .ok ()
    defaultInterfaceRes := .ok ()
    endpoints := []
    outEndpointRes := fun _ => .ok () }

/-- A CLI environment in which every external call succeeds and stdin is
ASCII (so `strings.ToLower` is byte-wise ASCII lowering). -/
def cliEnvOk : CliEnv :=
  { openPortRes := fun _ => .ok ()
    readFileRes := fun _ => .ok []
    writeRes := fun _ => .ok ()
    toLower := lowerBytes
    stdinLines := [] }

/-- A file system containing the single byte `X` (0x58) in every file. -/
def rfX : String → Except String Bytes := fun _ => .ok [88]

/-- Flags with an empty port name. -/
def emptyPortFlags : Flags := { port := "", baud := none, file := "", zpl := [] }

/-- Flags naming port COM3, everything else defaulted. -/
def com3Flags : Flags := { port := "COM3", baud := none, file := "", zpl := [] }

/-- The byte values of the ASCII line `"EXIT"`. -/
def exitUpper : Bytes := [69, 88, 73, 84]

/-! ## Claims -/

/-- Claim C2: on every backend, `send` transmits exactly `frame p`: `p`
followed by one line-feed byte (10) when `p` does not end with one, and `p`
unchanged when it already does.  Payloads are immutable values (Go strings),
so the caller's `p` is unmodified by the call. -/
theorem claim_C2_send_framing (s : Bytes) (up : USBPrinter)
    (np : NetworkPrinter) (w1 w2 : Except String Unit)
    (wres : Bytes → Except String Unit)
    (hclaim : up.claimed = true) (hconn : np.conn = true) :
    (up.SendZPL s w1).1 = [Event.usbWrite (frame s)] ∧
    (np.SendZPL s w2).1 = [Event.netWrite (frame s)] ∧
    (sendZpl wres s).1 = [Event.serialWrite (frame s)] ∧
    (s.getLast? ≠ some 10 → frame s = s ++ [10]) ∧
    (s.getLast? = some 10 → frame s = s) := by
  refine ⟨?_, ?_, rfl, ?_, ?_⟩
  · simp [USBPrinter.SendZPL, hclaim]
  · simp [NetworkPrinter.SendZPL, hconn]
  · intro h; simp [frame, h]
  · intro h; simp [frame, h]

/-- Witness for C2 at the payload `"^XA"` on concrete open handles. -/
theorem claim_C2_send_framing_witness :
    usb0.claimed = true ∧ net0.conn = true ∧
    ((usb0.SendZPL [94, 88, 65] (.ok ())).1 =
        [Event.usbWrite (frame [94, 88, 65])] ∧
     (net0.SendZPL [94, 88, 65] (.ok ())).1 =
        [Event.netWrite (frame [94, 88, 65])] ∧
     (sendZpl (fun _ => .ok ()) [94, 88, 65]).1 =
        [Event.serialWrite (frame [94, 88, 65])] ∧
     (([94, 88, 65] : Bytes).getLast? ≠ some 10 →
        frame [94, 88, 65] = [94, 88, 65] ++ [10]) ∧
     (([94, 88, 65] : Bytes).getLast? = some 10 →
        frame [94, 88, 65] = [94, 88, 65])) :=
  ⟨rfl, rfl, claim_C2_send_framing [94, 88, 65] usb0 net0 (.ok ()) (.ok ())
    (fun _ => .ok ()) rfl rfl⟩

/-- Claim C4: on either backend, a second close in succession is a no-op
returning success: it performs no operation on the underlying resources
(empty trace), leaves the handle unchanged, and returns nil — whatever the
underlying library closes would return.  The first close also returns nil
whenever the one underlying close whose result the code keeps succeeds. -/
theorem claim_C4_close_idempotent (p : USBPrinter) (np : NetworkPrinter)
    (d1 d2 c1 c2 : Option String) (h1 : d1 = none) (h2 : c1 = none) :
    (p.Close d1).2.2 = none ∧
    ((p.Close d1).2.1.Close d2) = ([], (p.Close d1).2.1, none) ∧
    (np.Close c1).2.2 = none ∧
    ((np.Close c1).2.1.Close c2) = ([], (np.Close c1).2.1, none) := by
  subst h1; subst h2
  obtain ⟨cx, dv, cl, o⟩ := p
  obtain ⟨nc, na⟩ := np
  cases cx <;> cases dv <;> cases cl <;> cases nc <;>
    simp [USBPrinter.Close, NetworkPrinter.Close]

/-- Witness for C4 on concrete open handles with succeeding underlying
closes. -/
theorem claim_C4_close_idempotent_witness :
    (none : Option String) = none ∧ (none : Option String) = none ∧
    ((usb0.Close none).2.2 = none ∧
     ((usb0.Close none).2.1.Close none) = ([], (usb0.Close none).2.1, none) ∧
     (net0.Close none).2.2 = none ∧
     ((net0.Close none).2.1.Close none) = ([], (net0.Close none).2.1, none)) :=
  ⟨rfl, rfl, claim_C4_close_idempotent usb0 net0 none none none none rfl rfl⟩

/-- Claim C8: dialing an unreachable network target returns the wrapped
connection error and no handle; the only external operation is the dial
itself (nothing is retained). -/
theorem claim_C8_network_open_unreachable (addr e : String) :
    NewNetworkPrinter addr (.error e) =
      ([Event.dial addr], .error ("failed to connect to printer: " ++ e)) :=
  rfl

/-- Claim C10: sending on a closed handle fails without writing: after a
close, the network backend's connection reference and the USB backend's
claim flag are cleared, so `SendZPL` returns its guard error and the trace
is empty, for every payload and every underlying-close outcome. -/
theorem claim_C10_send_after_close (p : USBPrinter) (np : NetworkPrinter)
    (s : Bytes) (d c : Option String) (w1 w2 : Except String Unit) :
    ((p.Close d).2.1.SendZPL s w1) =
      ([], .error "printer interface not claimed") ∧
    ((np.Close c).2.1.SendZPL s w2) =
      ([], .error "not connected to printer") := by
  obtain ⟨cx, dv, cl, o⟩ := p
  obtain ⟨nc, na⟩ := np
  cases cx <;> cases dv <;> cases cl <;> cases nc <;>
    simp [USBPrinter.Close, NetworkPrinter.Close, USBPrinter.SendZPL,
      NetworkPrinter.SendZPL]

/-- Claim C1: whenever `NewUSBPrinter` fails — for any combination of
outcomes of the gousb calls — the trace of resource operations it performed
is stack-balanced: every acquired resource (context, device, interface
claim) is released, each release matches the most recently acquired
resource (strict reverse order), and nothing is left claimed. -/
theorem claim_C1_usb_open_rollback (env : UsbEnv)
    (h : (NewUSBPrinter env).2.isOk = false) :
    balancedStack [] (NewUSBPrinter env).1 = true := by
  unfold NewUSBPrinter at h ⊢
  rcases hod : env.openDeviceRes with e | (_ | _) <;> simp only [hod] at h ⊢
  · rfl
  · rfl
  · cases hl : env.goosLinux <;> simp only [hl] at h ⊢
    · unfold afterDetach at h ⊢
      rcases hdi : env.defaultInterfaceRes with e | _ <;>
        simp only [hdi] at h ⊢
      · rfl
      · unfold afterClaim at h ⊢
        rcases hfo : firstOut env.endpoints with _ | n <;>
          simp only [hfo] at h ⊢
        · rfl
        · rcases hoe : env.outEndpointRes n with e | _ <;>
            simp only [hoe] at h ⊢
          · rfl
          · simp [Except.isOk, Except.toBool] at h
    · rcases hsd : env.setAutoDetachRes with e | _ <;>
        simp only [hsd] at h ⊢
      · rfl
      · unfold afterDetach at h ⊢
        rcases hdi : env.defaultInterfaceRes with e | _ <;>
          simp only [hdi] at h ⊢
        · rfl
        · unfold afterClaim at h ⊢
          rcases hfo : firstOut env.endpoints with _ | n <;>
            simp only [hfo] at h ⊢
          · rfl
          · rcases hoe : env.outEndpointRes n with e | _ <;>
              simp only [hoe] at h ⊢
            · rfl
            · simp [Except.isOk, Except.toBool] at h

/-- Witness for C1: the lookup finds no device; the trace acquires the
context and releases it. -/
theorem claim_C1_usb_open_rollback_witness :
    (NewUSBPrinter usbEnvNoDev).2.isOk = false ∧
    balancedStack [] (NewUSBPrinter usbEnvNoDev).1 = true :=
  ⟨rfl, claim_C1_usb_open_rollback usbEnvNoDev rfl⟩

/-- On every success path, the struct returned by `NewUSBPrinter` has
`ctx = nil` (the local was cleared before the literal was built), `dev`
and `claimed` set, and the open's trace never closed the context. -/
lemma NewUSBPrinter_ok_fields (env : UsbEnv) (p : USBPrinter)
    (h : (NewUSBPrinter env).2 = .ok p) :
    p.ctx = false ∧ p.dev = true ∧ p.claimed = true ∧
    Event.closeContext ∉ (NewUSBPrinter env).1 := by
  unfold NewUSBPrinter at h ⊢
  rcases hod : env.openDeviceRes with e | (_ | _) <;> simp only [hod] at h ⊢
  · exact absurd h (by simp)
  · exact absurd h (by simp)
  · cases hl : env.goosLinux <;> simp only [hl] at h ⊢
    · unfold afterDetach at h ⊢
      rcases hdi : env.defaultInterfaceRes with e | _ <;>
        simp only [hdi] at h ⊢
      · exact absurd h (by simp)
      · unfold afterClaim at h ⊢
        rcases hfo : firstOut env.endpoints with _ | n <;>
          simp only [hfo] at h ⊢
        · exact absurd h (by simp)
        · rcases hoe : env.outEndpointRes n with e | _ <;>
            simp only [hoe] at h ⊢
          · exact absurd h (by simp)
          · obtain rfl : _ = p := Except.ok.inj h
            refine ⟨rfl, rfl, rfl, ?_⟩
            simp
    · rcases hsd : env.setAutoDetachRes with e | _ <;>
        simp only [hsd] at h ⊢
      · exact absurd h (by simp)
      · unfold afterDetach at h ⊢
        rcases hdi : env.defaultInterfaceRes with e | _ <;>
          simp only [hdi] at h ⊢
        · exact absurd h (by simp)
        · unfold afterClaim at h ⊢
          rcases hfo : firstOut env.endpoints with _ | n <;>
            simp only [hfo] at h ⊢
          · exact absurd h (by simp)
          · rcases hoe : env.outEndpointRes n with e | _ <;>
              simp only [hoe] at h ⊢
            · exact absurd h (by simp)
            · obtain rfl : _ = p := Except.ok.inj h
              refine ⟨rfl, rfl, rfl, ?_⟩
              simp

/-- Claim C3 (divergence): after a successful `NewUSBPrinter`, the handle's
`ctx` field is nil — the local `ctx` variable was set to nil *before* the
struct literal was evaluated — so neither the open's trace nor any later
`Close` of the handle ever closes the USB context: the context is leaked,
although `Close` was written to close it when the field is set. -/
theorem claim_C3_context_leak (env : UsbEnv) (p : USBPrinter)
    (d : Option String) (h : (NewUSBPrinter env).2 = .ok p) :
    p.ctx = false ∧
    Event.closeContext ∉ (NewUSBPrinter env).1 ∧
    Event.closeContext ∉ (p.Close d).1 := by
  obtain ⟨hctx, hdev, hcl, hmem⟩ := NewUSBPrinter_ok_fields env p h
  refine ⟨hctx, hmem, ?_⟩
  simp [USBPrinter.Close, hctx, hcl, hdev]

/-- Witness for C3: a fully successful open yields `usb0`, whose `ctx`
field is nil; no close of the context ever happens. -/
theorem claim_C3_context_leak_witness :
    (NewUSBPrinter usbEnvOk).2 = .ok usb0 ∧
    (usb0.ctx = false ∧
     Event.closeContext ∉ (NewUSBPrinter usbEnvOk).1 ∧
     Event.closeContext ∉ (usb0.Close none).1) :=
  ⟨rfl, claim_C3_context_leak usbEnvOk usb0 none rfl⟩

/-- Claim C5 (amended): running the serial tool with an empty port name
reports "Port name is required" and terminates the process with a non-zero
status (`log.Fatal`), before any external operation — in particular before
any hardware or device access (the trace is empty). -/
theorem claim_C5_empty_port_fatal (env : CliEnv) (f : Flags)
    (h : f.port = "") :
    cliMain env f = ([], .fatalExit "Port name is required. Use -port flag.") := by
  simp [cliMain, h]

/-- Counterexample to C5 as stated: with an empty port name the program
does not return an error to a caller — it terminates the process
(`log.Fatal`), so the run does not end in a normal return. -/
theorem claim_C5_counterexample :
    (cliMain cliEnvOk emptyPortFlags).2 =
      CliResult.fatalExit "Port name is required. Use -port flag." ∧
    (cliMain cliEnvOk emptyPortFlags).1 = [] ∧
    CliResult.fatalExit "Port name is required. Use -port flag." ≠
      CliResult.normalExit :=
  ⟨rfl, rfl, by simp⟩

/-- Witness for the amended C5 at concrete flags. -/
theorem claim_C5_empty_port_fatal_witness :
    emptyPortFlags.port = "" ∧
    cliMain cliEnvOk emptyPortFlags =
      ([], .fatalExit "Port name is required. Use -port flag.") :=
  ⟨rfl, claim_C5_empty_port_fatal cliEnvOk emptyPortFlags rfl⟩

/-- Claim C6 (amended): when a file path is given, the file's whole byte
content is written to the port as one write, directly and unframed: the
bytes transmitted are exactly the file's bytes, with no line-feed appended
even when the content does not end with one. -/
theorem claim_C6_file_sent_unframed (rf : String → Except String Bytes)
    (wres : Bytes → Except String Unit) (filename : String) (data : Bytes)
    (h : rf filename = .ok data) :
    (sendZplFromFile rf wres filename).1 =
      [Event.readFile filename, Event.serialWrite data] := by
  unfold sendZplFromFile
  rw [h]
  rcases hw : wres data with e | u <;> simp [hw]

/-- Counterexample to C6 as stated: a file whose content is the single
byte `X` (which does not end in a line feed) is transmitted as exactly
that byte — no line-feed byte is appended. -/
theorem claim_C6_counterexample :
    (sendZplFromFile rfX (fun _ => .ok ()) "label.zpl").1 =
      [Event.readFile "label.zpl", Event.serialWrite [88]] ∧
    ([88] : Bytes).getLast? ≠ some 10 ∧
    Event.serialWrite [88] ≠ Event.serialWrite ([88] ++ [10]) :=
  ⟨rfl, by decide, by decide⟩

/-- Witness for the amended C6 at a concrete file. -/
theorem claim_C6_file_sent_unframed_witness :
    rfX "label.zpl" = .ok [88] ∧
    (sendZplFromFile rfX (fun _ => .ok ()) "label.zpl").1 =
      [Event.readFile "label.zpl", Event.serialWrite [88]] :=
  ⟨rfl, claim_C6_file_sent_unframed rfX (fun _ => .ok ()) "label.zpl" [88] rfl⟩

/-- The input lines the interactive loop acts on: the prefix before the
first line whose `strings.ToLower` image is `"exit"`, with empty lines
dropped. -/
def activeLines (toLower : Bytes → Bytes) (lines : List Bytes) :
    List Bytes :=
  (lines.takeWhile fun l => !(toLower l == exitBytes)).filter
    fun l => !(l == [])

/-- Claim C7 (amended): for every behaviour of the library's
`strings.ToLower` and of the port writes, the interactive loop sends, as
separate framed payloads and in order, exactly the non-empty input lines
occurring before the first line that `strings.ToLower` maps to `"exit"`
(the sentinel is matched on the lowered input, not literally), and ends
there or at end of input; each sent line gets its own report — an error
report when its write fails — and a failed send never stops the loop (the
trace and reports do not depend on earlier outcomes). -/
theorem claim_C7_interactive (toLower : Bytes → Bytes)
    (wres : Bytes → Except String Unit) (lines : List Bytes) :
    (interactiveLoop toLower wres lines).1 =
      (activeLines toLower lines).map
        (fun l => Event.serialWrite (frame l)) ∧
    (interactiveLoop toLower wres lines).2 =
      (activeLines toLower lines).map (fun l =>
        match wres (frame l) with
        | .error e => "Error sending command: " ++ e
        | .ok _ => "Command sent successfully.") := by
  induction lines with
  | nil => exact ⟨rfl, rfl⟩
  | cons line rest ih =>
    by_cases hexit : toLower line = exitBytes
    · constructor <;> simp [interactiveLoop, activeLines, hexit]
    · by_cases hempty : line = []
      · subst hempty
        constructor <;>
          simp [interactiveLoop, activeLines, hexit, ih.1, ih.2]
      · constructor <;>
          simp [interactiveLoop, activeLines, hexit, hempty, ih.1, ih.2,
            sendZpl]

/-- Counterexample to C7 as stated: the non-empty ASCII line `"EXIT"` is
not equal to the sentinel `"exit"`, yet its `strings.ToLower` image (ASCII
lowering on this ASCII input) is, so the loop ends on it and sends
nothing: not every non-empty line is sent and the loop does not end
exactly on the literal sentinel. -/
theorem claim_C7_counterexample :
    lowerBytes exitUpper = exitBytes ∧
    (interactiveLoop lowerBytes (fun _ => .ok ())
      [exitUpper, [94, 88, 65]]).1 = [] ∧
    exitUpper ≠ ([] : Bytes) ∧ exitUpper ≠ exitBytes :=
  ⟨by decide, rfl, by decide, by decide⟩

/-- Claim C9: whenever the port name is non-empty, the serial open is the
first external operation and uses exactly the config built from the flags:
8 data bits, no parity, one stop bit, the caller-supplied baud rate, and
9600 baud when the `-baud` flag is absent. -/
theorem claim_C9_serial_config (env : CliEnv) (f : Flags)
    (h : f.port ≠ "") :
    (cliMain env f).1.head? = some (Event.openPort (serialConfigOf f)) ∧
    (serialConfigOf f).size = 8 ∧
    (serialConfigOf f).parity = Parity.parityNone ∧
    (serialConfigOf f).stopBits = StopBits.stop1 ∧
    (serialConfigOf f).baud = f.baud.getD 9600 ∧
    (f.baud = none → (serialConfigOf f).baud = 9600) := by
  refine ⟨?_, rfl, rfl, rfl, rfl, fun hb => by simp [serialConfigOf, hb]⟩
  unfold cliMain
  rw [if_neg h]
  dsimp only
  split
  · rfl
  · split
    · split <;> rfl
    · split
      · split <;> rfl
      · rfl

/-- Witness for C9 with port COM3 and no `-baud` flag. -/
theorem claim_C9_serial_config_witness :
    com3Flags.port ≠ "" ∧
    ((cliMain cliEnvOk com3Flags).1.head? =
        some (Event.openPort (serialConfigOf com3Flags)) ∧
     (serialConfigOf com3Flags).size = 8 ∧
     (serialConfigOf com3Flags).parity = Parity.parityNone ∧
     (serialConfigOf com3Flags).stopBits = StopBits.stop1 ∧
     (serialConfigOf com3Flags).baud = com3Flags.baud.getD 9600 ∧
     (com3Flags.baud = none → (serialConfigOf com3Flags).baud = 9600)) :=
  ⟨by decide, claim_C9_serial_config cliEnvOk com3Flags (by decide)⟩

end ZplGo
